import Mathlib

/-!
# Verification of the Razorpay payment processor adapter

A shallow embedding of the processor's core logic: the status mapper, the
HMAC-SHA256 signature utilities, the reconciliation operations
(`createPayment`, `capturePayment`, `refundPayment`, `getPaymentStatus`)
and the webhook delivery engine (`deliverWebhook`).

Gateway calls, the record store and the HTTP transport are modelled as
explicit function arguments (the response the collaborator would return),
so every operation is a pure, executable Lean function of its inputs and
of the collaborator behaviour.  JavaScript `undefined` is modelled as
`Option.none`; the JS `||` fallback on strings (which also treats the
empty string as falsy) is modelled by `jsOr`.  All clock reads inside one
call (`Date.now()` / `new Date()`) are modelled as a single instant `now`,
a count of milliseconds.
-/

namespace Crypto

/-- Truncate to a 32-bit word. -/
def w32 (x : Nat) : Nat := x % 4294967296

/-- Right rotation of a 32-bit word. -/
def rotr (n x : Nat) : Nat := w32 ((x >>> n) ||| (x <<< (32 - n)))

/-- Bitwise complement of a 32-bit word. -/
def compl32 (x : Nat) : Nat := 4294967295 - x

def ch (x y z : Nat) : Nat := (x &&& y) ^^^ (compl32 x &&& z)

def maj (x y z : Nat) : Nat := (x &&& y) ^^^ (x &&& z) ^^^ (y &&& z)

def bigSigma0 (x : Nat) : Nat := rotr 2 x ^^^ rotr 13 x ^^^ rotr 22 x

def bigSigma1 (x : Nat) : Nat := rotr 6 x ^^^ rotr 11 x ^^^ rotr 25 x

def smallSigma0 (x : Nat) : Nat := rotr 7 x ^^^ rotr 18 x ^^^ (x >>> 3)

def smallSigma1 (x : Nat) : Nat := rotr 17 x ^^^ rotr 19 x ^^^ (x >>> 10)

/-- The 64 SHA-256 round constants (FIPS 180-4, written in decimal). -/
def K : List Nat :=
  [1116352408, 1899447441, 3049323471, 3921009573,
   961987163, 1508970993, 2453635748, 2870763221,
   3624381080, 310598401, 607225278, 1426881987,
   1925078388, 2162078206, 2614888103, 3248222580,
   3835390401, 4022224774, 264347078, 604807628,
   770255983, 1249150122, 1555081692, 1996064986,
   2554220882, 2821834349, 2952996808, 3210313671,
   3336571891, 3584528711, 113926993, 338241895,
   666307205, 773529912, 1294757372, 1396182291,
   1695183700, 1986661051, 2177026350, 2456956037,
   2730485921, 2820302411, 3259730800, 3345764771,
   3516065817, 3600352804, 4094571909, 275423344,
   430227734, 506948616, 659060556, 883997877,
   958139571, 1322822218, 1537002063, 1747873779,
   1955562222, 2024104815, 2227730452, 2361852424,
   2428436474, 2756734187, 3204031479, 3329325298]

/-- The initial SHA-256 hash state (FIPS 180-4, written in decimal). -/
def H0 : List Nat :=
  [1779033703, 3144134277, 1013904242, 2773480762,
   1359893119, 2600822924, 528734635, 1541459225]

/-- Big-endian 8-byte encoding of a number (the padded bit length). -/
def be64 (n : Nat) : List Nat :=
  [(n >>> 56) % 256, (n >>> 48) % 256, (n >>> 40) % 256, (n >>> 32) % 256,
   (n >>> 24) % 256, (n >>> 16) % 256, (n >>> 8) % 256, n % 256]

/-- Big-endian 4-byte encoding of a 32-bit word. -/
def be32 (w : Nat) : List Nat :=
  [(w >>> 24) % 256, (w >>> 16) % 256, (w >>> 8) % 256, w % 256]

/-- SHA-256 padding: append 0x80, zeros to 56 mod 64, then the bit length. -/
def padMessage (msg : List Nat) : List Nat :=
  let len := msg.length
  let zeros := (120 - ((len + 1) % 64)) % 64
  msg ++ [0x80] ++ List.replicate zeros 0 ++ be64 (8 * len)

/-- Group bytes into big-endian 32-bit words. -/
def bytesToWords : List Nat → List Nat
  | a :: b :: c :: d :: rest => (a * 16777216 + b * 65536 + c * 256 + d) :: bytesToWords rest
  | _ => []

/-- Split a word list into blocks of 16 words. -/
def chunks16 (ws : List Nat) : List (List Nat) :=
  match ws with
  | [] => []
  | w :: rest => ((w :: rest).take 16) :: chunks16 ((w :: rest).drop 16)
termination_by ws.length
decreasing_by simp [List.length_drop]; omega

/-- One step of the message-schedule extension; the head of `rws` is the most
recent word. -/
def scheduleStep (rws : List Nat) : Nat :=
  w32 (smallSigma1 (rws.getD 1 0) + rws.getD 6 0 + smallSigma0 (rws.getD 14 0) + rws.getD 15 0)

/-- Extend the schedule by `n` further words (kept in reverse order). -/
def extendSchedule : Nat → List Nat → List Nat
  | 0, rws => rws
  | n + 1, rws => extendSchedule n (scheduleStep rws :: rws)

/-- The 64-word message schedule of a 16-word block. -/
def schedule (block : List Nat) : List Nat :=
  (extendSchedule 48 block.reverse).reverse

/-- One SHA-256 compression round on the 8-word working state. -/
def round (st : List Nat) (kw : Nat × Nat) : List Nat :=
  match st with
  | [a, b, c, d, e, f, g, h] =>
    let t1 := w32 (h + bigSigma1 e + ch e f g + kw.1 + kw.2)
    let t2 := w32 (bigSigma0 a + maj a b c)
    [w32 (t1 + t2), a, b, c, w32 (d + t1), e, f, g]
  | other => other

/-- Compress one 16-word block into the running hash state. -/
def compress (h : List Nat) (block : List Nat) : List Nat :=
  let st := ((K.zip (schedule block)).foldl round h)
  List.zipWith (fun x y => w32 (x + y)) h st

/-- SHA-256 over a byte list, producing the 32 digest bytes. -/
def sha256Bytes (msg : List Nat) : List Nat :=
  ((chunks16 (bytesToWords (padMessage msg))).foldl compress H0).foldr
    (fun w acc => be32 w ++ acc) []

/-- HMAC-SHA256 over byte lists (block size 64). -/
def hmacSha256 (key msg : List Nat) : List Nat :=
  let k0 := if key.length > 64 then sha256Bytes key else key
  let kp := k0 ++ List.replicate (64 - k0.length) 0
  let ipad := kp.map (fun b => b ^^^ 0x36)
  let opad := kp.map (fun b => b ^^^ 0x5c)
  sha256Bytes (opad ++ sha256Bytes (ipad ++ msg))

/-- The UTF-8 bytes of a string, as `crypto.createHmac(...).update(string)`
consumes it. -/
def strBytes (s : String) : List Nat := s.toUTF8.toList.map (fun b => b.toNat)

def hexDigit (n : Nat) : Char := if n < 10 then Char.ofNat (48 + n) else Char.ofNat (87 + n)

def byteToHex (b : Nat) : String := String.mk [hexDigit (b / 16), hexDigit (b % 16)]

def bytesToHex (bs : List Nat) : String := String.join (bs.map byteToHex)

/-- Hex-encoded HMAC-SHA256 of a string message under a string key: the model
of `crypto.createHmac(sha256, key).update(msg).digest(hex)`. -/
def hmacSha256Hex (key msg : String) : String :=
  bytesToHex (hmacSha256 (strBytes key) (strBytes msg))

end Crypto

namespace Razorpay

/-- The JS `a || b` fallback on an optional string: `undefined` and the empty
string are falsy. -/
def jsOr (a : Option String) (b : String) : String :=
  match a with
  | none => b
  | some s => if s = "" then b else s

/-- JS object spread `\x7b ...base, ...overrides \x7d`: later keys shadow
earlier ones. -/
def objectSpread (base overrides : List (String × String)) : List (String × String) :=
  base.filter (fun kv => (overrides.lookup kv.1).isNone) ++ overrides

/-- A raw gateway order record (`RazorpayOrder`). -/
structure RazorpayOrder where
  id : String
  entity : String
  amount : Nat
  currency : String
  status : String
  receipt : String
  notes : List (String × String)
deriving DecidableEq, Repr

/-- A raw gateway payment-attempt record (`RazorpayPayment`). -/
structure RazorpayPayment where
  id : String
  entity : String
  amount : Nat
  currency : String
  status : String
  order_id : String
  method : String
  error_code : Option String := none
  error_description : Option String := none
deriving DecidableEq, Repr

/-- A raw gateway refund record (`RazorpayRefund`). -/
structure RazorpayRefund where
  id : String
  entity : String
  amount : Nat
  payment_id : String
  status : String
deriving DecidableEq, Repr

/-- The `items` wrapper returned by `orders.fetchPayments`; `items` may be
absent (`undefined`). -/
structure PaymentsList where
  items : Option (List RazorpayPayment)
deriving DecidableEq, Repr

/-- The structured error a failed gateway call carries
(`Error & \x7b error?: \x7b code?, description? \x7d \x7d`). -/
structure GatewayError where
  code : Option String := none
  description : Option String := none
  message : String
deriving DecidableEq, Repr

/-- Merchant credentials. -/
structure Credentials where
  keyId : String
  keySecret : String
deriving DecidableEq, Repr

/-- The processor configuration (`PaymentConfig`). -/
structure PaymentConfig where
  merchantId : String
  testMode : Bool
  credentials : Credentials
deriving DecidableEq, Repr

/-- The customer block of a `PaymentInput`. -/
structure Customer where
  email : Option String := none
  name : Option String := none
deriving DecidableEq, Repr

/-- The canonical payment request (`PaymentInput`). -/
structure PaymentInput where
  orderId : String
  merchantId : String
  amount : Nat
  currency : String
  metadata : List (String × String) := []
  customer : Option Customer := none
  returnUrl : Option String := none
deriving DecidableEq, Repr

/-- The checkout metadata `createPayment` returns for the client-side widget. -/
structure CheckoutMetadata where
  key : String
  orderId : String
  amount : Nat
  currency : String
  name : String
  prefillEmail : Option String := none
  prefillName : Option String := none
  notes : List (String × String) := []
  callbackUrl : Option String := none
deriving DecidableEq, Repr

/-- The canonical payment result (`PaymentResult`); absent fields are `none`. -/
structure PaymentResult where
  success : Bool
  status : String
  processorOrderId : Option String := none
  processorTransactionId : Option String := none
  errorCode : Option String := none
  errorMessage : Option String := none
  metadata : Option CheckoutMetadata := none
deriving DecidableEq, Repr

/-- The canonical refund result (`RefundResult`). -/
structure RefundResult where
  success : Bool
  refundId : Option String := none
  status : String
  errorCode : Option String := none
  errorMessage : Option String := none
deriving DecidableEq, Repr

/-- The result shape every catch-block of the reconciliation operations
produces from a gateway error. -/
def gatewayErrorResult (e : GatewayError) : PaymentResult :=
  { success := false
    status := "failed"
    errorCode := some (jsOr e.code "razorpay_error")
    errorMessage := some (jsOr e.description e.message) }

/-- The request `createPayment` sends to `orders.create`. -/
structure OrdersCreateRequest where
  amount : Nat
  currency : String
  receipt : String
  notes : List (String × String)
deriving DecidableEq, Repr

/-- The `orders.create` request built from a `PaymentInput`. -/
def createOrderRequest (input : PaymentInput) : OrdersCreateRequest :=
  { amount := input.amount
    currency := input.currency
    receipt := input.orderId
    notes := objectSpread
      [("merchant_id", input.merchantId), ("order_id", input.orderId)] input.metadata }

/-- The model of `RazorpayProcessor.createPayment`: create a gateway order and return the
checkout data for the client-side step; `ordersCreate` models the gateway
call, returning either the order or the structured error the catch-block
receives. -/
def createPayment (input : PaymentInput) (config : PaymentConfig)
    (ordersCreate : OrdersCreateRequest → Except GatewayError RazorpayOrder) :
    PaymentResult :=
  match ordersCreate (createOrderRequest input) with
  | Except.ok order =>
    { success := false
      status := "requires_action"
      processorOrderId := some order.id
      metadata := some
        { key := if config.testMode then config.credentials.keyId else config.credentials.keyId
          orderId := order.id
          amount := order.amount
          currency := order.currency
          name := "Loop Payment"
          prefillEmail := (input.customer.bind (fun c => c.email))
          prefillName := (input.customer.bind (fun c => c.name))
          notes := order.notes
          callbackUrl := input.returnUrl } }
  | Except.error e => gatewayErrorResult e

/-- The `no_payment` failure result of `capturePayment`. -/
def noPaymentResult : PaymentResult :=
  { success := false
    status := "failed"
    errorCode := some "no_payment"
    errorMessage := some "No payment found for order" }

/-- The model of `RazorpayProcessor.capturePayment`: fetch the order's payment attempts,
short-circuit if the first is already captured, capture if authorized, fail
otherwise.  `fetchPayments` and `capture` model the two gateway calls; the
second component of the result counts the underlying `payments.capture`
calls issued. -/
def capturePayment (processorOrderId : String) (amount : Nat)
    (fetchPayments : String → Except GatewayError PaymentsList)
    (capture : String → Nat → String → Except GatewayError RazorpayPayment) :
    PaymentResult × Nat :=
  match fetchPayments processorOrderId with
  | Except.error e => (gatewayErrorResult e, 0)
  | Except.ok payments =>
    match payments.items with
    | none => (noPaymentResult, 0)
    | some [] => (noPaymentResult, 0)
    | some (payment :: _) =>
      if payment.status = "captured" then
        ({ success := true
           status := "captured"
           processorOrderId := some processorOrderId
           processorTransactionId := some payment.id }, 0)
      else if payment.status = "authorized" then
        match capture payment.id amount payment.currency with
        | Except.ok captured =>
          ({ success := true
             status := "captured"
             processorOrderId := some processorOrderId
             processorTransactionId := some captured.id }, 1)
        | Except.error e => (gatewayErrorResult e, 1)
      else
        ({ success := false
           status := "failed"
           errorCode := payment.error_code
           errorMessage := some (jsOr payment.error_description
             ("Payment status: " ++ payment.status)) }, 0)

/-- The model of `RazorpayProcessor.refundPayment`: one gateway refund call, with
`processed` mapped to `success` and anything else to `pending`; the gateway
call is issued with the transaction id, the amount and speed `normal`. -/
def refundPayment (processorTransactionId : String) (amount : Nat)
    (refund : String → Nat → String → Except GatewayError RazorpayRefund) :
    RefundResult :=
  match refund processorTransactionId amount "normal" with
  | Except.ok r =>
    { success := true
      refundId := some r.id
      status := if r.status = "processed" then "success" else "pending" }
  | Except.error e =>
    { success := false
      status := "failed"
      errorCode := some (jsOr e.code "razorpay_error")
      errorMessage := some (jsOr e.description e.message) }

/-- The fixed status table of `getPaymentStatus` (`statusMap[...] || failed`)
on the own keys of the object literal: captured, authorized and created map
to their canonical values, everything else falls through to `failed`.  This
is exact for every status string that is not the name of a member the
object literal inherits from `Object.prototype`; `statusMapLookup` below
models the lookup in full, prototype chain included. -/
def mapStatus (s : String) : String :=
  if s = "captured" then "captured"
  else if s = "authorized" then "authorized"
  else if s = "created" then "pending"
  else if s = "failed" then "failed"
  else "failed"

/-- A value the JS property read on the status-table object literal can
produce: a string of the table itself, or a member inherited from
`Object.prototype` (a function, or an object for the `__proto__` accessor
— truthy and not a canonical status string). -/
inductive StatusMapValue where
  | str (s : String)
  | protoMember (name : String)
deriving DecidableEq, Repr

/-- The property names every plain object literal inherits from
`Object.prototype`. -/
def objectPrototypeMembers : List String :=
  ["constructor", "hasOwnProperty", "isPrototypeOf", "propertyIsEnumerable",
   "toLocaleString", "toString", "valueOf",
   "__defineGetter__", "__defineSetter__", "__lookupGetter__", "__lookupSetter__",
   "__proto__"]

/-- The JS property read `statusMap[s]` on the status-table object literal:
an own key yields its table value, a key naming an inherited
`Object.prototype` member yields that member, and any other key reads
`undefined` (`none`). -/
def statusMapGet (s : String) : Option StatusMapValue :=
  if s = "captured" then some (StatusMapValue.str "captured")
  else if s = "authorized" then some (StatusMapValue.str "authorized")
  else if s = "created" then some (StatusMapValue.str "pending")
  else if s = "failed" then some (StatusMapValue.str "failed")
  else if s ∈ objectPrototypeMembers then some (StatusMapValue.protoMember s)
  else none

/-- The full JS lookup `statusMap[s] || 'failed'` including the prototype
chain of the object literal: every found value (own table string or
inherited member) is truthy, so only the `undefined` of a genuinely absent
key falls back to `failed`. -/
def statusMapLookup (s : String) : StatusMapValue :=
  (statusMapGet s).getD (StatusMapValue.str "failed")

/-- The model of `RazorpayProcessor.getPaymentStatus`: read-only payment-attempt lookup;
absence of a payment is `pending`, a found attempt is mapped through the
status table. -/
def getPaymentStatus (processorOrderId : String)
    (fetchPayments : String → Except GatewayError PaymentsList) : PaymentResult :=
  match fetchPayments processorOrderId with
  | Except.error e => gatewayErrorResult e
  | Except.ok payments =>
    match payments.items with
    | none => { success := false, status := "pending", processorOrderId := some processorOrderId }
    | some [] => { success := false, status := "pending", processorOrderId := some processorOrderId }
    | some (payment :: _) =>
      { success := payment.status == "captured"
        status := mapStatus payment.status
        processorOrderId := some processorOrderId
        processorTransactionId := some payment.id
        errorCode := payment.error_code
        errorMessage := payment.error_description }

/-- The model of `RazorpayProcessor.verifyPaymentSignature`: recompute the hex HMAC-SHA256
of `orderId|paymentId` under the key secret and compare. -/
def verifyPaymentSignature (orderId paymentId signature keySecret : String) : Bool :=
  let expectedSignature := Crypto.hmacSha256Hex keySecret (orderId ++ "|" ++ paymentId)
  expectedSignature == signature

/-- The stored webhook-event record, as far as `deliverWebhook` reads it. -/
structure StoredWebhookEvent where
  id : String
  attempts : Nat
  status : String
deriving DecidableEq, Repr

/-- The field set `deliverWebhook` passes to the store's update call; `none`
models a field whose JS value is `undefined` (absent from the update). -/
structure WebhookEventUpdate where
  status : String
  attempts : Nat
  lastAttemptAt : Option Nat := none
  deliveredAt : Option Nat := none
  nextRetryAt : Option Nat := none
deriving DecidableEq, Repr

/-- The `WebhookDeliveryResult` returned to the caller. -/
structure WebhookDeliveryResult where
  success : Bool
  statusCode : Option Nat := none
  attempts : Nat
  deliveredAt : Option Nat := none
  errorMessage : Option String := none
deriving DecidableEq, Repr

/-- The backoff delay computed on a delivery failure:
`min(60000 * 2 ^ (attempts - 1), 86400000)` milliseconds. -/
def retryDelay (attempts : Nat) : Nat :=
  min (60000 * 2 ^ (attempts - 1)) 86400000

/-- The `response.ok` predicate of the fetch API: a 2xx status code. -/
def responseOk (status : Nat) : Bool := 200 ≤ status && status < 300

/-- The attempt number of this delivery: prior stored attempts (zero when the
record is missing, `event[0]?.attempts || 0`) plus one. -/
def attemptNumber (stored : Option StoredWebhookEvent) : Nat :=
  (match stored with | some e => e.attempts | none => 0) + 1

/-- The headers `deliverWebhook` sends: content type, event id and timestamp,
plus the `v1=`-prefixed HMAC signature of `timestamp.body` when a (truthy)
secret is configured. -/
def webhookHeaders (webhookEventId : String) (webhookSecret : Option String)
    (body : String) (now : Nat) : List (String × String) :=
  let baseHeaders := [("Content-Type", "application/json"),
                      ("X-Loop-Event-Id", webhookEventId),
                      ("X-Loop-Timestamp", toString now)]
  match webhookSecret with
  | some secret =>
    if secret = "" then baseHeaders
    else
      let signaturePayload := toString now ++ "." ++ body
      let signature := Crypto.hmacSha256Hex secret signaturePayload
      baseHeaders ++ [("X-Loop-Signature", "v1=" ++ signature)]
  | none => baseHeaders

/-- The model of `deliverWebhook`: look up the stored record (a missing record counts as
zero prior attempts), sign and POST the serialized body, and record the
outcome.  `stored` models the store read, `now` the clock, and `fetchFn`
the HTTP transport applied to the url, headers and body — `Except.ok` is a
completed HTTP response with its status code, `Except.error` a thrown
failure (timeout or network error) with its message.  The result pairs the
returned `WebhookDeliveryResult` with the update written to the store. -/
def deliverWebhook (webhookEventId webhookUrl : String) (webhookSecret : Option String)
    (body : String) (stored : Option StoredWebhookEvent) (now : Nat)
    (fetchFn : String → List (String × String) → String → Except String Nat) :
    WebhookDeliveryResult × WebhookEventUpdate :=
  let attempts := attemptNumber stored
  match fetchFn webhookUrl (webhookHeaders webhookEventId webhookSecret body now) body with
  | Except.ok status =>
    let success := responseOk status
    let delay := retryDelay attempts
    ({ success := success
       statusCode := some status
       attempts := attempts
       deliveredAt := if success then some now else none
       errorMessage := if success then none else some ("HTTP " ++ toString status) },
     { status := if success then "delivered" else "pending"
       attempts := attempts
       lastAttemptAt := some now
       deliveredAt := if success then some now else none
       nextRetryAt := if success then none else some (now + delay) })
  | Except.error msg =>
    let delay := retryDelay attempts
    ({ success := false
       attempts := attempts
       errorMessage := some msg },
     { status := if attempts ≥ 5 then "failed" else "pending"
       attempts := attempts
       lastAttemptAt := some now
       nextRetryAt := if attempts ≥ 5 then none else some (now + delay) })

/-! ## Concrete collaborator behaviours used by witnesses -/

/-- A payment attempt already captured by the gateway. -/
def capturedPayExample : RazorpayPayment :=
  { id := "pay_1", entity := "payment", amount := 49900, currency := "INR",
    status := "captured", order_id := "order_1", method := "card" }

/-- A payment attempt still in gateway state `created`. -/
def createdPayExample : RazorpayPayment :=
  { id := "pay_2", entity := "payment", amount := 49900, currency := "INR",
    status := "created", order_id := "order_2", method := "upi" }

/-- A gateway whose payment list for any order is the single captured
attempt. -/
def fetchCapturedExample : String → Except GatewayError PaymentsList :=
  fun _ => Except.ok { items := some [capturedPayExample] }

/-- A gateway whose payment list for any order is the single created
attempt. -/
def fetchCreatedExample : String → Except GatewayError PaymentsList :=
  fun _ => Except.ok { items := some [createdPayExample] }

/-- A capture collaborator for runs that must not reach the capture call. -/
def dummyCapture : String → Nat → String → Except GatewayError RazorpayPayment :=
  fun _ _ _ => Except.error { message := "capture must not be called" }

end Razorpay

namespace Razorpay

/-! ## Helper lemmas -/

/-- The status table never invents `captured` for a different gateway
status. -/
theorem mapStatus_ne_captured {s : String} (h : s ≠ "captured") :
    mapStatus s ≠ "captured" := by
  unfold mapStatus
  split_ifs with h1 h2 h3 h4
  · exact absurd h1 h
  · decide
  · decide
  · decide
  · decide

/-! ## Claims -/

/-- C6 counterexample: the gateway status string `toString` names a member
the status-table object literal inherits from `Object.prototype`, so the
lookup returns that truthy inherited member and the `|| 'failed'` fallback
never fires — the result is neither `failed` nor any canonical status,
refuting fail-closure for every string. -/
theorem statusMapLookup_prototype_counterexample :
    statusMapLookup "toString" = StatusMapValue.protoMember "toString" ∧
    statusMapLookup "toString" ≠ StatusMapValue.str "failed" ∧
    statusMapLookup "toString" ≠ StatusMapValue.str "captured" ∧
    statusMapLookup "toString" ≠ StatusMapValue.str "authorized" ∧
    statusMapLookup "toString" ≠ StatusMapValue.str "pending" ∧
    ¬("toString" = "captured" ∨ "toString" = "authorized" ∨
      "toString" = "created" ∨ "toString" = "failed") := by
  decide

/-- C6 amended.  For every gateway status string that is not the name of an
inherited `Object.prototype` member, the lookup is total and fail-closed:
captured, authorized, created and failed map to their fixed canonical
values by case-sensitive exact match and every other such string (including
`refunded`, the empty string and `CAPTURED`) maps to `failed`; a string
naming an inherited prototype member instead yields that truthy member, so
the `failed` fallback does not fire there — but no string other than
`captured` ever yields the success value `captured`. -/
theorem statusMapLookup_fail_closed :
    statusMapLookup "captured" = StatusMapValue.str "captured" ∧
    statusMapLookup "authorized" = StatusMapValue.str "authorized" ∧
    statusMapLookup "created" = StatusMapValue.str "pending" ∧
    statusMapLookup "failed" = StatusMapValue.str "failed" ∧
    statusMapLookup "refunded" = StatusMapValue.str "failed" ∧
    statusMapLookup "" = StatusMapValue.str "failed" ∧
    statusMapLookup "CAPTURED" = StatusMapValue.str "failed" ∧
    (∀ s : String, s ≠ "captured" → s ≠ "authorized" → s ≠ "created" → s ≠ "failed" →
      s ∉ objectPrototypeMembers → statusMapLookup s = StatusMapValue.str "failed") ∧
    (∀ s : String, s ∈ objectPrototypeMembers →
      statusMapLookup s = StatusMapValue.protoMember s) ∧
    (∀ s : String, s ≠ "captured" → statusMapLookup s ≠ StatusMapValue.str "captured") := by
  refine ⟨by decide, by decide, by decide, by decide, by decide, by decide, by decide,
    fun s h1 h2 h3 h4 h5 => ?_, fun s hs => ?_, fun s h1 => ?_⟩
  · unfold statusMapLookup statusMapGet
    rw [if_neg h1, if_neg h2, if_neg h3, if_neg h4, if_neg h5]
    rfl
  · unfold objectPrototypeMembers at hs
    fin_cases hs <;> decide
  · unfold statusMapLookup statusMapGet
    rw [if_neg h1]
    by_cases h2 : s = "authorized"
    · rw [if_pos h2]; decide
    · rw [if_neg h2]
      by_cases h3 : s = "created"
      · rw [if_pos h3]; decide
      · rw [if_neg h3]
        by_cases h4 : s = "failed"
        · rw [if_pos h4]; decide
        · rw [if_neg h4]
          by_cases h5 : s ∈ objectPrototypeMembers
          · rw [if_pos h5]; simp
          · rw [if_neg h5]; decide

/-- Witness for the amended C6: an honest unrecognized status falls back to
`failed`, a prototype-member status yields the inherited member. -/
theorem statusMapLookup_fail_closed_witness :
    statusMapLookup "refunded" = StatusMapValue.str "failed" ∧
    statusMapLookup "toString" = StatusMapValue.protoMember "toString" :=
  ⟨statusMapLookup_fail_closed.2.2.2.2.2.2.2.1 "refunded"
      (by decide) (by decide) (by decide) (by decide) (by decide),
   statusMapLookup_fail_closed.2.2.2.2.2.2.2.2.1 "toString" (by decide)⟩

/-- C5.  The backoff schedule: the retry delay of attempt `n ≥ 1` is
`min(60000 * 2 ^ (n - 1), 86400000)` milliseconds, so attempts 1..5 wait
60s, 120s, 240s, 480s and 960s, and the delay never exceeds the 24-hour
cap for any attempt count. -/
theorem retryDelay_schedule (n : Nat) (_hn : 1 ≤ n) :
    retryDelay n = min (60000 * 2 ^ (n - 1)) 86400000 ∧
    retryDelay 1 = 60000 ∧ retryDelay 2 = 120000 ∧ retryDelay 3 = 240000 ∧
    retryDelay 4 = 480000 ∧ retryDelay 5 = 960000 ∧
    (∀ m : Nat, retryDelay m ≤ 86400000) :=
  ⟨rfl, by decide, by decide, by decide, by decide, by decide,
    fun m => min_le_right _ _⟩

/-- Witness for C5 at the fifth attempt. -/
theorem retryDelay_schedule_witness : retryDelay 5 = 960000 :=
  (retryDelay_schedule 5 (by decide)).2.2.2.2.2.1

/-- C4.  Inbound signature verification accepts exactly the hex-encoded
HMAC-SHA256 of `orderId|paymentId` under the key secret; it is a total
boolean function of its four string arguments. -/
theorem verifyPaymentSignature_iff_hmac (orderId paymentId signature keySecret : String) :
    verifyPaymentSignature orderId paymentId signature keySecret = true ↔
      signature = Crypto.hmacSha256Hex keySecret (orderId ++ "|" ++ paymentId) := by
  unfold verifyPaymentSignature
  constructor
  · intro h
    exact (eq_of_beq h).symm
  · intro h
    exact beq_iff_eq.mpr h.symm

/-- Witness for C4: the correctly recomputed signature is accepted. -/
theorem verifyPaymentSignature_iff_hmac_witness :
    verifyPaymentSignature "order_1" "pay_1"
      (Crypto.hmacSha256Hex "secret_key" ("order_1" ++ "|" ++ "pay_1")) "secret_key" = true :=
  (verifyPaymentSignature_iff_hmac "order_1" "pay_1"
    (Crypto.hmacSha256Hex "secret_key" ("order_1" ++ "|" ++ "pay_1")) "secret_key").mpr rfl

/-- C1.  Capture idempotence: when the first fetched payment attempt is
already `captured`, `capturePayment` returns success with status `captured`
and that attempt's id as the transaction id, issues zero underlying gateway
capture calls, and a second call with the same arguments returns the
identical result. -/
theorem capturePayment_already_captured_idempotent (oid : String) (amt : Nat)
    (payment : RazorpayPayment) (rest : List RazorpayPayment)
    (fetchPayments : String → Except GatewayError PaymentsList)
    (capture : String → Nat → String → Except GatewayError RazorpayPayment)
    (hfetch : fetchPayments oid = Except.ok { items := some (payment :: rest) })
    (hcap : payment.status = "captured") :
    capturePayment oid amt fetchPayments capture =
      ({ success := true, status := "captured", processorOrderId := some oid,
         processorTransactionId := some payment.id }, 0) ∧
    (capturePayment oid amt fetchPayments capture).2 = 0 ∧
    capturePayment oid amt fetchPayments capture =
      capturePayment oid amt fetchPayments capture := by
  have h : capturePayment oid amt fetchPayments capture =
      ({ success := true, status := "captured", processorOrderId := some oid,
         processorTransactionId := some payment.id }, 0) := by
    unfold capturePayment
    simp only [hfetch]
    rw [if_pos hcap]
  exact ⟨h, by rw [h], rfl⟩

/-- Witness for C1: a gateway reporting one already-captured attempt. -/
theorem capturePayment_already_captured_idempotent_witness :
    capturePayment "order_1" 49900 fetchCapturedExample dummyCapture =
      ({ success := true, status := "captured", processorOrderId := some "order_1",
         processorTransactionId := some capturedPayExample.id }, 0) ∧
    (capturePayment "order_1" 49900 fetchCapturedExample dummyCapture).2 = 0 ∧
    capturePayment "order_1" 49900 fetchCapturedExample dummyCapture =
      capturePayment "order_1" 49900 fetchCapturedExample dummyCapture :=
  capturePayment_already_captured_idempotent "order_1" 49900 capturedPayExample []
    fetchCapturedExample dummyCapture rfl rfl

/-- C3 counterexample: a first attempt in gateway state `created` is neither
captured nor authorized; the status table maps `created` to `pending`, but
`capturePayment` returns status `failed`, so the fallthrough result is not
the attempt's status mapped through the table. -/
theorem capturePayment_fallthrough_not_mapped :
    (capturePayment "order_2" 49900 fetchCreatedExample dummyCapture).1.status = "failed" ∧
    mapStatus createdPayExample.status = "pending" ∧
    (capturePayment "order_2" 49900 fetchCreatedExample dummyCapture).1.status ≠
      mapStatus createdPayExample.status := by
  decide

/-- C3 amended.  When the first fetched attempt's status is neither
`captured` nor `authorized`, `capturePayment` fails with status `failed`
unconditionally (not the table-mapped status), carrying the attempt's
gateway error code, and its error description when present (falling back to
a `Payment status:` message); no gateway capture call is issued. -/
theorem capturePayment_fallthrough_fails_closed (oid : String) (amt : Nat)
    (payment : RazorpayPayment) (rest : List RazorpayPayment)
    (fetchPayments : String → Except GatewayError PaymentsList)
    (capture : String → Nat → String → Except GatewayError RazorpayPayment)
    (hfetch : fetchPayments oid = Except.ok { items := some (payment :: rest) })
    (h1 : payment.status ≠ "captured") (h2 : payment.status ≠ "authorized") :
    capturePayment oid amt fetchPayments capture =
      ({ success := false, status := "failed", errorCode := payment.error_code,
         errorMessage := some (jsOr payment.error_description
           ("Payment status: " ++ payment.status)) }, 0) := by
  unfold capturePayment
  simp only [hfetch]
  rw [if_neg h1, if_neg h2]

/-- Witness for the amended C3 at the `created` attempt. -/
theorem capturePayment_fallthrough_fails_closed_witness :
    capturePayment "order_2" 49900 fetchCreatedExample dummyCapture =
      ({ success := false, status := "failed", errorCode := createdPayExample.error_code,
         errorMessage := some (jsOr createdPayExample.error_description
           ("Payment status: " ++ createdPayExample.status)) }, 0) :=
  capturePayment_fallthrough_fails_closed "order_2" 49900 createdPayExample []
    fetchCreatedExample dummyCapture rfl (by decide) (by decide)

/-- The stored webhook record after four failed attempts. -/
def storedFourAttempts : StoredWebhookEvent :=
  { id := "evt_1", attempts := 4, status := "pending" }

/-- C2.  The code's behaviour at the retry ceiling: on the fifth delivery
attempt a non-2xx HTTP response (a completed `fetch` with `ok = false`,
here a 500) leaves the stored record `pending` with a scheduled
`nextRetryAt`, while a thrown failure (timeout or network error) at the
same attempt count marks it `failed` with no `nextRetryAt` — the
`attempts >= 5` give-up branch exists only in the catch handler, so five
consecutive HTTP 500 responses never reach the `failed` state. -/
theorem deliverWebhook_fifth_http_500_not_failed :
    (deliverWebhook "evt_1" "https://merchant.example/hook" none "x"
        (some storedFourAttempts) 1000 (fun _ _ _ => Except.ok 500)).2 =
      { status := "pending", attempts := 5, lastAttemptAt := some 1000,
        deliveredAt := none, nextRetryAt := some (1000 + retryDelay 5) } ∧
    (deliverWebhook "evt_1" "https://merchant.example/hook" none "x"
        (some storedFourAttempts) 1000 (fun _ _ _ => Except.error "timeout")).2 =
      { status := "failed", attempts := 5, lastAttemptAt := some 1000,
        deliveredAt := none, nextRetryAt := none } := by
  decide

/-- C9.  A missing stored record does not make `deliverWebhook` error: the
prior attempt count is taken as zero, the HTTP attempt is still performed
(its outcome is reported back), and both the returned result and the
persisted update carry `attempts = 1`. -/
theorem deliverWebhook_missing_record_attempts_one (id url : String)
    (sec : Option String) (body : String) (now : Nat)
    (fetchFn : String → List (String × String) → String → Except String Nat) :
    (deliverWebhook id url sec body none now fetchFn).1.attempts = 1 ∧
    (deliverWebhook id url sec body none now fetchFn).2.attempts = 1 ∧
    (deliverWebhook id url sec body none now
      (fun _ _ _ => Except.ok 200)).1.success = true := by
  refine ⟨?_, ?_, rfl⟩ <;>
  · unfold deliverWebhook
    cases hf : fetchFn url (webhookHeaders id sec body now) body with
    | ok status => simp [hf, attemptNumber]
    | error msg => simp [hf, attemptNumber]

/-- C7.  Refund result mapping: an accepted gateway refund yields
`success = true` with the gateway's refund id, status `success` exactly
when the gateway reports `processed` and `pending` for any other reported
status; a thrown gateway error yields `success = false`, status `failed`,
with the gateway's error code and description surfaced (with the
`razorpay_error` / message fallbacks). -/
theorem refundPayment_mapping :
    (∀ (txn : String) (amt : Nat)
        (refund : String → Nat → String → Except GatewayError RazorpayRefund)
        (r : RazorpayRefund), refund txn amt "normal" = Except.ok r →
      (refundPayment txn amt refund).success = true ∧
      (refundPayment txn amt refund).refundId = some r.id ∧
      (r.status = "processed" → (refundPayment txn amt refund).status = "success") ∧
      (r.status ≠ "processed" → (refundPayment txn amt refund).status = "pending")) ∧
    (∀ (txn : String) (amt : Nat)
        (refund : String → Nat → String → Except GatewayError RazorpayRefund)
        (e : GatewayError), refund txn amt "normal" = Except.error e →
      refundPayment txn amt refund =
        { success := false, refundId := none, status := "failed",
          errorCode := some (jsOr e.code "razorpay_error"),
          errorMessage := some (jsOr e.description e.message) }) := by
  constructor
  · intro txn amt refund r hok
    unfold refundPayment
    rw [hok]
    refine ⟨rfl, rfl, fun hp => ?_, fun hp => ?_⟩
    · show (if r.status = "processed" then "success" else "pending") = "success"
      rw [if_pos hp]
    · show (if r.status = "processed" then "success" else "pending") = "pending"
      rw [if_neg hp]
  · intro txn amt refund e herr
    unfold refundPayment
    rw [herr]

/-- The refund record a processed-refund gateway run returns. -/
def refundProcessedExample : RazorpayRefund :=
  { id := "rfnd_1", entity := "refund", amount := 49900, payment_id := "pay_1",
    status := "processed" }

/-- A gateway that accepts any refund request and reports it processed. -/
def refundAcceptExample : String → Nat → String → Except GatewayError RazorpayRefund :=
  fun _ _ _ => Except.ok refundProcessedExample

/-- Witness for C7: a processed refund maps to a successful result. -/
theorem refundPayment_mapping_witness :
    (refundPayment "pay_1" 49900 refundAcceptExample).success = true ∧
    (refundPayment "pay_1" 49900 refundAcceptExample).status = "success" := by
  have h := refundPayment_mapping.1 "pay_1" 49900 refundAcceptExample
    refundProcessedExample rfl
  exact ⟨h.1, h.2.2.1 rfl⟩

/-- C8.  The PaymentResult invariant: on every path of `createPayment`,
`capturePayment` and `getPaymentStatus` — gateway error paths included —
the returned result has `success = true` exactly when its status is
`captured`. -/
theorem paymentResult_success_iff_captured :
    (∀ (input : PaymentInput) (config : PaymentConfig)
        (ordersCreate : OrdersCreateRequest → Except GatewayError RazorpayOrder),
      ((createPayment input config ordersCreate).success = true ↔
        (createPayment input config ordersCreate).status = "captured")) ∧
    (∀ (oid : String) (amt : Nat)
        (fetchPayments : String → Except GatewayError PaymentsList)
        (capture : String → Nat → String → Except GatewayError RazorpayPayment),
      ((capturePayment oid amt fetchPayments capture).1.success = true ↔
        (capturePayment oid amt fetchPayments capture).1.status = "captured")) ∧
    (∀ (oid : String) (fetchPayments : String → Except GatewayError PaymentsList),
      ((getPaymentStatus oid fetchPayments).success = true ↔
        (getPaymentStatus oid fetchPayments).status = "captured")) := by
  refine ⟨fun input config ordersCreate => ?_, fun oid amt fetchPayments capture => ?_,
    fun oid fetchPayments => ?_⟩
  · unfold createPayment
    cases ordersCreate (createOrderRequest input) with
    | ok order => simp
    | error e => simp [gatewayErrorResult]
  · unfold capturePayment
    cases fetchPayments oid with
    | error e => simp [gatewayErrorResult]
    | ok payments =>
      cases hitems : payments.items with
      | none => simp [hitems, noPaymentResult]
      | some l =>
        cases l with
        | nil => simp [hitems, noPaymentResult]
        | cons payment rest =>
          by_cases hcap : payment.status = "captured"
          · simp [hitems, hcap]
          · by_cases hauth : payment.status = "authorized"
            · simp only [hitems, if_neg hcap, if_pos hauth]
              cases capture payment.id amt payment.currency with
              | ok captured => simp
              | error e => simp [gatewayErrorResult]
            · simp [hitems, hcap, hauth]
  · unfold getPaymentStatus
    cases fetchPayments oid with
    | error e => simp [gatewayErrorResult]
    | ok payments =>
      cases hitems : payments.items with
      | none => simp [hitems]
      | some l =>
        cases l with
        | nil => simp [hitems]
        | cons payment rest =>
          by_cases hcap : payment.status = "captured"
          · simp [hitems, hcap, mapStatus]
          · have hne := mapStatus_ne_captured hcap
            simp [hitems, hcap, hne]

/-- Witness for C8 on a concrete `getPaymentStatus` run. -/
theorem paymentResult_success_iff_captured_witness :
    ((getPaymentStatus "order_1" fetchCapturedExample).success = true ↔
      (getPaymentStatus "order_1" fetchCapturedExample).status = "captured") :=
  paymentResult_success_iff_captured.2.2 "order_1" fetchCapturedExample

/-- C10.  `createPayment` is independent of the `testMode` flag: two configs
differing only in `testMode` (same merchant, same credentials, same input
and gateway behaviour) produce identical results, and in both modes the
checkout metadata's `key` is the configured `keyId`. -/
theorem createPayment_testMode_irrelevant (input : PaymentInput) (mid : String)
    (creds : Credentials) (t1 t2 : Bool)
    (ordersCreate : OrdersCreateRequest → Except GatewayError RazorpayOrder) :
    createPayment input { merchantId := mid, testMode := t1, credentials := creds }
        ordersCreate =
      createPayment input { merchantId := mid, testMode := t2, credentials := creds }
        ordersCreate ∧
    (∀ order : RazorpayOrder, ordersCreate (createOrderRequest input) = Except.ok order →
      ((createPayment input { merchantId := mid, testMode := t1, credentials := creds }
          ordersCreate).metadata.map CheckoutMetadata.key) = some creds.keyId) := by
  constructor
  · unfold createPayment
    cases ordersCreate (createOrderRequest input) with
    | ok order => cases t1 <;> cases t2 <;> rfl
    | error e => rfl
  · intro order hok
    unfold createPayment
    simp only [hok]
    cases t1 <;> rfl

/-- The order record the example gateway returns on creation. -/
def orderCreatedExample : RazorpayOrder :=
  { id := "order_1", entity := "order", amount := 49900, currency := "INR",
    status := "created", receipt := "ord_int_1", notes := [] }

/-- A gateway that accepts any order-create request. -/
def ordersCreateExample : OrdersCreateRequest → Except GatewayError RazorpayOrder :=
  fun _ => Except.ok orderCreatedExample

/-- The canonical payment input of the examples. -/
def inputExample : PaymentInput :=
  { orderId := "ord_int_1", merchantId := "m_1", amount := 49900, currency := "INR" }

/-- Witness for C10: test mode and live mode coincide on a concrete run and
the checkout key is the configured key id. -/
theorem createPayment_testMode_irrelevant_witness :
    createPayment inputExample
        { merchantId := "m_1", testMode := true,
          credentials := { keyId := "rzp_test_k1", keySecret := "s1" } }
        ordersCreateExample =
      createPayment inputExample
        { merchantId := "m_1", testMode := false,
          credentials := { keyId := "rzp_test_k1", keySecret := "s1" } }
        ordersCreateExample ∧
    ((createPayment inputExample
        { merchantId := "m_1", testMode := true,
          credentials := { keyId := "rzp_test_k1", keySecret := "s1" } }
        ordersCreateExample).metadata.map CheckoutMetadata.key) = some "rzp_test_k1" :=
  have h := createPayment_testMode_irrelevant inputExample "m_1"
    { keyId := "rzp_test_k1", keySecret := "s1" } true false ordersCreateExample
  ⟨h.1, h.2 orderCreatedExample rfl⟩

end Razorpay

